import Mathlib

/-!
Verification development for the job analysis queue and asynchronous pipeline
execution system of the crossNoso AMR backend.

The embedding covers:
* `run_pipeline` (pipeline/anti_pipeline.py) as a pure function from an
  environment of external-tool outcomes to the ordered trace of filesystem
  effects it performs on the job directory;
* `analysis_worker` and the worker pool (routers/api_anitform.py) — the worker
  body as a trace transformer and the pool as a labelled transition system;
* `check_status`, `download_file`, `generate_job_id`, `generate_random_keys`,
  `validate_gca_code` and the `/upload` handler's effect sequence
  (routers/api_anitform.py) over explicit filesystem / server-state models.
-/

namespace CrossNoso

/-- One filesystem effect performed by the pipeline or the worker on a job
directory: an external tool invocation, the creation of a zero-byte marker
file, or a write (truncating) / append to `error.log`. -/
inductive Ev where
  | invoke (tool : String)
  | mark (file : String)
  | errWrite (msg : String)
  | errAppend (msg : String)
  deriving DecidableEq, Repr

/-- Outcomes supplied by the external world for one pipeline run: the result
of each external tool invocation (keyed by the command name used in the
source), the first line of `1.taxAssign/taxAssign.result` (or a read error),
and the parsed rows of `3.abProfilesCmp/hits_summary.tsv` (or a read error). -/
structure Env where
  tool : String → Except String Unit
  taxResultFirstLine : Except String String
  hitsSummaryRows : Except String (List (List String))

/-- Whitespace characters removed by Python `str.strip()`. -/
def isPySpace (c : Char) : Bool :=
  c = ' ' || c = '\t' || c = '\n' || c = '\r' || c = '\x0b' || c = '\x0c'

/-- Python `str.strip()` on a character list. -/
def pyStrip (cs : List Char) : List Char :=
  ((cs.dropWhile isPySpace).reverse.dropWhile isPySpace).reverse

/-- Split a character list on every occurrence of `sep`; like Python
`s.split(sep)`, the result is never empty (an empty input yields one empty
field). -/
def splitOnChar (sep : Char) : List Char → List (List Char)
  | [] => [[]]
  | c :: cs =>
    if c = sep then [] :: splitOnChar sep cs
    else
      match splitOnChar sep cs with
      | [] => [[c]]
      | p :: ps => (c :: p) :: ps

/-- Split a character list at the first occurrence of `sep` only, as in
Python `s.split(sep, 1)` when a separator is present. -/
def splitFirstChar (sep : Char) : List Char → Option (List Char × List Char)
  | [] => none
  | c :: cs =>
    if c = sep then some ([], cs)
    else
      match splitFirstChar sep cs with
      | none => none
      | some (a, b) => some (c :: a, b)

/-- Species-key extraction from the first line of `taxAssign.result`
(anti_pipeline.py lines 100-104): strip the line, take the first
tab-separated field, split at the first underscore and rejoin the two
halves (a field with no underscore is kept whole). -/
def speciesKeyOf (firstLine : String) : String :=
  let spFull := (splitOnChar '\t' (pyStrip firstLine.data)).headD []
  match splitFirstChar '_' spFull with
  | some (a, b) => String.mk (a ++ '_' :: b)
  | none => String.mk spFull

/-- The fixed species-to-abbreviation lookup table
(anti_pipeline.py lines 106-113); unknown species map to `none`. -/
def speciesMapping (k : String) : Option String :=
  if k = "Acinetobacter_baumannii" then some "AB"
  else if k = "Enterococcus_faecium" then some "EF"
  else if k = "Klebsiella_pneumoniae" then some "KP"
  else if k = "Pseudomonas_aeruginosa" then some "PA"
  else if k = "Staphylococcus_aureus" then some "SA"
  else none

/-- Species resolution (anti_pipeline.py lines 98-115): any exception while
reading the result file yields `organism = None`; otherwise the mapping is
applied to the extracted key. -/
def organismOf (env : Env) : Option String :=
  match env.taxResultFirstLine with
  | .error _ => none
  | .ok line => speciesMapping (speciesKeyOf line)

/-- The five recognized organism abbreviations (anti_pipeline.py line 118). -/
def knownOrganisms : List String := ["AB", "EF", "KP", "PA", "SA"]

/-- The branch condition of anti_pipeline.py line 118:
`organism in {"AB", "EF", "KP", "PA", "SA"}`. -/
def organismKnown (env : Env) : Bool :=
  match organismOf env with
  | some o => knownOrganisms.contains o
  | none => false

/-- Command name of stage 1 (taxonomic assignment). -/
def taxAssignTool : String := "1.Taxonomic-Assignments.pl"

/-- Command name of stage 2 (query profiling), branch A. -/
def queryProfilingTool : String := "2.Query-Profiling.pl"

/-- Command name of stage 3 (antibiogram comparison, alleticDist), branch A. -/
def abCmpAlleticTool : String := "3.Antibiogram-Comparison-alleticDist.pl"

/-- Command name of stage 4 (cgMLST profiling), branch A. -/
def cgProfilerTool : String := "4.cgMLST-Profiler-alleticDist.pl"

/-- Command name of stage 5a (dendrogram plotting), branch A. -/
def dendroPlotterTool : String := "5.Dendro-Plotter_NJ.pl"

/-- Command name of stage 5b (heatmap rendering via Rscript), branch A. -/
def rscriptHeatmapTool : String := "/home/ngp/R-4.3.2/bin/Rscript"

/-- Command name of the simplified antibiogram comparison, branch B. -/
def abCmpSimpleTool : String := "3.Antibiogram-Comparison.pl"

/-- Row loop of the branch-B `hits_summary.tsv` parse (anti_pipeline.py lines
249-253): a row with fewer than 7 fields is skipped with `continue`;
otherwise the country field `row[0]` is read and nothing else happens. -/
def parseRows : List (List String) → Except String Unit
  | [] => .ok ()
  | row :: rest =>
      if row.length < 7 then parseRows rest
      else
        let _country := row.headD ""
        parseRows rest

/-- Branch-B parse of `hits_summary.tsv` (anti_pipeline.py lines 240-253):
a read failure propagates; on an empty file `next(reader)` raises
`StopIteration` (whose `str` is empty), caught by the surrounding handler;
otherwise the header row is skipped and the rows are scanned. -/
def parseHitsSummary (content : Except String (List (List String))) :
    Except String Unit :=
  match content with
  | .error e => .error e
  | .ok [] => .error ""
  | .ok (_header :: rows) => parseRows rows

/-- Finalization effects (anti_pipeline.py lines 259-262): create
`complete_ok` and the empty placeholder `country` file. -/
def finalizeEvs : List Ev := [.mark "complete_ok", .mark "country"]

/-- Shallow embedding of `run_pipeline` (anti_pipeline.py lines 37-262) as
the ordered trace of effects on the job directory. Every stage-boundary
`except` handler of the source becomes the `.error` branch of the
corresponding match: it records the stage message in `error.log` (write mode
for stage 1, append mode for all later stages) and stops — the function
always returns a trace, mirroring that the source returns normally. -/
def run_pipeline (env : Env) : List Ev :=
  match env.tool taxAssignTool with
  | .error e =>
      [.invoke taxAssignTool,
       .errWrite ("Taxonomic Assignment failed:\n" ++ e ++ "\n")]
  | .ok _ =>
    [.invoke taxAssignTool, .mark "taxAssign_ok"] ++
    (if organismKnown env then
      match env.tool queryProfilingTool with
      | .error e =>
          [.invoke queryProfilingTool,
           .errAppend ("Query-Profiling failed:\n" ++ e ++ "\n")]
      | .ok _ =>
        [.invoke queryProfilingTool, .mark "queryProfile_ok"] ++
        match env.tool abCmpAlleticTool with
        | .error e =>
            [.invoke abCmpAlleticTool,
             .errAppend ("Ab-Comparison-alleticDist failed:\n" ++ e ++ "\n")]
        | .ok _ =>
          [.invoke abCmpAlleticTool, .mark "abProfilesCmp_ok"] ++
          match env.tool cgProfilerTool with
          | .error e =>
              [.invoke cgProfilerTool,
               .errAppend ("cgMLST-Profiler failed:\n" ++ e ++ "\n")]
          | .ok _ =>
            [.invoke cgProfilerTool, .mark "cgProfiles_ok"] ++
            match env.tool dendroPlotterTool with
            | .error e =>
                [.invoke dendroPlotterTool,
                 .errAppend ("Dendrogram or Heatmap failed:\n" ++ e ++ "\n")]
            | .ok _ =>
              [.invoke dendroPlotterTool] ++
              match env.tool rscriptHeatmapTool with
              | .error e =>
                  [.invoke rscriptHeatmapTool,
                   .errAppend ("Dendrogram or Heatmap failed:\n" ++ e ++ "\n")]
              | .ok _ =>
                [.invoke rscriptHeatmapTool, .mark "DendroPlot_ok"] ++
                finalizeEvs
    else
      match env.tool abCmpSimpleTool with
      | .error e =>
          [.invoke abCmpSimpleTool,
           .errAppend ("Simple Ab-Comparison failed:\n" ++ e ++ "\n")]
      | .ok _ =>
        [.invoke abCmpSimpleTool, .mark "abProfilesCmp_ok"] ++
        match parseHitsSummary env.hitsSummaryRows with
        | .error e =>
            [.errAppend ("Parsing hits_summary failed:\n" ++ e ++ "\n")]
        | .ok _ => finalizeEvs)

/-- Marker files created by a trace, in creation order. -/
def markers (t : List Ev) : List String :=
  t.filterMap fun e =>
    match e with
    | .mark m => some m
    | _ => none

/-- Whether a trace created the given marker file. -/
def hasMarker (t : List Ev) (m : String) : Bool := (markers t).contains m

/-- External tools invoked by a trace, in invocation order. -/
def invokedTools (t : List Ev) : List String :=
  t.filterMap fun e =>
    match e with
    | .invoke n => some n
    | _ => none

/-- Contents of `error.log` after replaying a trace: a write-mode open
truncates, an append-mode open appends; the empty list means the file was
never written. -/
def errorLog (t : List Ev) : List String :=
  t.foldl
    (fun acc e =>
      match e with
      | .errWrite m => [m]
      | .errAppend m => acc ++ [m]
      | _ => acc) []

/-- One iteration of `analysis_worker` (api_anitform.py lines 307-320) for a
dequeued job: run `run_pipeline` on the executor and, since `run_pipeline`
returns normally (it catches expected tool failures internally), the worker
then unconditionally creates `complete_ok` (line 314). -/
def analysis_worker_run (env : Env) : List Ev :=
  run_pipeline env ++ [.mark "complete_ok"]

/-- Presence flags of one job directory, as consulted by the status query. -/
structure JobFS where
  dirExists : Bool
  completeOk : Bool
  errorLogExists : Bool
  deriving DecidableEq, Repr

/-- Shallow embedding of `check_status` (api_anitform.py lines 337-352):
404 when the job directory is missing; `done` when `complete_ok` exists;
`running` otherwise. The `errorLogExists` flag of the filesystem model is
never consulted. -/
def check_status (fs : JobFS) : Except Nat String :=
  if fs.dirExists = false then .error 404
  else if fs.completeOk then .ok "done"
  else .ok "running"

/-- Split a path string on `/` into components. -/
def splitPath (s : String) : List String :=
  (splitOnChar '/' s.data).map String.mk

/-- Resolve `.`, `..` and empty components the way the operating system does
during path lookup. -/
def normalizePath (comps : List String) : List String :=
  comps.foldl
    (fun acc c =>
      if c = "." ∨ c = "" then acc
      else if c = ".." then acc.dropLast
      else acc ++ [c]) []

/-- A filesystem for the download model: the set of existing directories and
existing regular files, as normalized component lists. -/
structure FileSystem where
  dirs : List (List String)
  files : List (List String)
  deriving DecidableEq, Repr

/-- Existence check covering both files and directories (`os.path.exists`). -/
def pathExists (fs : FileSystem) (p : List String) : Bool :=
  fs.files.contains p || fs.dirs.contains p

/-- Shallow embedding of `download_file` (api_anitform.py lines 390-404):
404 when the job directory is missing; otherwise the requested filename is
joined onto the job directory and served whenever the resolved path exists.
The source performs no containment check on the resolved path. -/
def download_file (fs : FileSystem) (jobId fname : String) :
    Except Nat (List String) :=
  let folder := normalizePath (["anti_form_jobs"] ++ splitPath jobId)
  if fs.dirs.contains folder = false then .error 404
  else
    let p := normalizePath (["anti_form_jobs"] ++ splitPath jobId ++ splitPath fname)
    if pathExists fs p then .ok p else .error 404

/-- Whether the path lies inside the given directory, i.e. the directory's
components are an initial segment of the path's components. -/
def insideDir (dir p : List String) : Bool := dir.isPrefixOf p

/-- The character pool of `generate_random_keys` (api_anitform.py line 75):
`string.digits + string.ascii_letters`. -/
def poolChars : List Char :=
  "0123456789abcdefghijklmnopqrstuvwxyzABCDEFGHIJKLMNOPQRSTUVWXYZ".data

/-- Shallow embedding of `generate_random_keys` (api_anitform.py lines
65-76): the random source is modelled as a stream of naturals indexed by
position; each draw picks a pool character by index modulo the pool size. -/
def generate_random_keys (n : Nat) (rand : Nat → Nat) (pos : Nat) : String :=
  String.mk ((List.range n).map fun i =>
    poolChars.getD (rand (pos + i) % poolChars.length) '0')

/-- Python `f"{n:02d}"`: decimal rendering zero-padded to width 2 (wider
numbers render with all their digits). -/
def pad2 (n : Nat) : String :=
  if n < 10 then "0" ++ toString n else toString n

/-- One candidate job id (api_anitform.py lines 94-99):
`today ++ seq ++ "-" ++ key4 ++ "-" ++ key4 ++ "-" ++ key8`. -/
def mkJobId (today : String) (seqn : Nat) (rand : Nat → Nat) (pos : Nat) :
    String :=
  today ++ pad2 seqn ++ "-" ++ generate_random_keys 4 rand pos ++ "-" ++
    generate_random_keys 4 rand (pos + 4) ++ "-" ++
    generate_random_keys 8 rand (pos + 8)

/-- Shallow embedding of `generate_job_id` (api_anitform.py lines 80-104).
The daily serial counter entry for today is `none` when the day is not yet
in `serial_counters` (then initialized to 1); the current value is used as
the sequence number and incremented. If the directory named by the candidate
id already exists the whole function recurses; the recursion is fueled and
returns the chosen id together with the updated counter value. -/
def generate_job_id :
    Nat → String → Option Nat → (String → Bool) → (Nat → Nat) → Nat →
    Option (String × Nat)
  | 0, _, _, _, _, _ => none
  | fuel + 1, today, counterEntry, dirTaken, rand, pos =>
    let counter := counterEntry.getD 1
    let jid := mkJobId today counter rand pos
    if dirTaken ("anti_form_jobs/" ++ jid) = false then some (jid, counter + 1)
    else generate_job_id fuel today (some (counter + 1)) dirTaken rand (pos + 16)

/-- Consume exactly `n` leading characters satisfying `p`, returning the
rest of the character list, or `none` when fewer are available. -/
def consumeClass (p : Char → Bool) : Nat → List Char → Option (List Char)
  | 0, cs => some cs
  | _ + 1, [] => none
  | n + 1, c :: cs => if p c then consumeClass p n cs else none

/-- An ASCII alphanumeric character, the class `[0-9A-Za-z]` of the spec. -/
def isAlnumAscii (c : Char) : Bool := c.isDigit || c.isAlpha

/-- Expect a dash as the next character of a partially consumed id. -/
def expectDash : Option (List Char) → Option (List Char)
  | some (c :: r) => if c = '-' then some r else none
  | _ => none

/-- Modelled from the spec: the documented job-id shape
`YYYYMMDDss-XXXX-XXXX-XXXXXXXX` — ten digits, then three dash-separated
random segments of lengths 4, 4 and 8 drawn from `[0-9A-Za-z]`. This
definition follows the spec's words, for comparison against the
source-derived generator. -/
def jobIdFormatOk (s : String) : Bool :=
  decide
    (((expectDash (consumeClass Char.isDigit 10 s.data)).bind
      fun r1 => (expectDash (consumeClass isAlnumAscii 4 r1)).bind
        fun r2 => (expectDash (consumeClass isAlnumAscii 4 r2)).bind
          fun r3 => consumeClass isAlnumAscii 8 r3) = some [])

/-- Match of the GCA pattern body `GC[AF]_[0-9]{9}(\.\d)?` against an entire
character list. -/
def gcaCodeMatch : List Char → Bool
  | 'G' :: 'C' :: x :: '_' :: rest =>
    (x = 'A' || x = 'F') &&
    (match consumeClass Char.isDigit 9 rest with
     | some [] => true
     | some ['.', d] => d.isDigit
     | _ => false)
  | _ => false

/-- Shallow embedding of `validate_gca_code` (api_anitform.py lines
108-121): `re.match(r"^GC[AF]_[0-9]{9}(\.\d)?$", s)`. Python's `$` also
matches just before one trailing newline, hence the `dropLast`. -/
def validate_gca_code (s : String) : Bool :=
  let cs := s.data
  gcaCodeMatch (if cs.getLast? = some '\n' then cs.dropLast else cs)

/-- Server-side state touched by the `/upload` handler: today's
`serial_counters` entry, the existing job directories, the files written so
far (path and a content tag), and the contents of `analysis_queue`. -/
structure BackendState where
  counters : Option Nat
  dirs : List String
  files : List (String × String)
  queue : List String
  deriving DecidableEq, Repr

/-- Successful response payload of the `/upload` handler, reduced to the
fields the claims are about. -/
structure UploadResult where
  job_id : String
  folder : String
  deriving DecidableEq, Repr

/-- Shallow embedding of the effect sequence of `upload_file`
(api_anitform.py lines 194-292): allocate a job id (consuming a daily
sequence number), create the job directory, validate the GCA code (raising
HTTP 400 on a nonempty code that fails validation), write `formData.json`,
save the uploaded FASTA or run the download tool (HTTP 500 on failure),
enqueue the folder, and send the notification email when an address was
given (HTTP 502 on failure). `fileRead`, `downloadRes` and `emailRes` model
the outcomes of the corresponding awaited operations. -/
def upload_file (fuel : Nat) (today : String) (rand : Nat → Nat) (pos : Nat)
    (gcaCode : String) (hasFile : Bool) (fileRead : Except String String)
    (downloadRes : Except String Unit) (email : Option String)
    (emailRes : Except String Unit) (st : BackendState) :
    Option (Except Nat UploadResult × BackendState) :=
  match generate_job_id fuel today st.counters
      (fun p => st.dirs.contains p) rand pos with
  | none => none
  | some (jid, c) =>
    let folder := "anti_form_jobs/" ++ jid
    let st1 : BackendState :=
      { st with counters := some c, dirs := st.dirs ++ [folder] }
    if gcaCode ≠ "" ∧ validate_gca_code gcaCode = false then
      some (.error 400, st1)
    else
      let st2 : BackendState :=
        { st1 with files := st1.files ++ [(folder ++ "/formData.json", "formData")] }
      match (if hasFile then fileRead.map fun _ => () else downloadRes) with
      | .error _ => some (.error 500, st2)
      | .ok _ =>
        let st3 : BackendState :=
          if hasFile then
            { st2 with files := st2.files ++ [(folder ++ "/contigFile.fa", "fasta")] }
          else st2
        let st4 : BackendState := { st3 with queue := st3.queue ++ [folder] }
        match email with
        | some _ =>
          match emailRes with
          | .error _ => some (.error 502, st4)
          | .ok _ => some (.ok ⟨jid, folder⟩, st4)
        | none => some (.ok ⟨jid, folder⟩, st4)

/-- The fixed worker-pool size (api_anitform.py line 303). -/
def ANALYSIS_WORKER_COUNT : Nat := 5

/-- State of the queue plus worker pool: the pending queue in FIFO order and,
for each long-lived worker, the job it is currently executing (`none` when
the worker is idle awaiting `queue.get()`). A worker holds at most one job
by construction, matching the body of `analysis_worker`, which only dequeues
its next job after the previous `run_in_executor` call has completed. -/
structure PoolState where
  queue : List String
  workers : List (Option String)
  deriving DecidableEq, Repr

/-- Initial state built by `start_analysis_workers` (api_anitform.py lines
324-330): an empty queue and `ANALYSIS_WORKER_COUNT` idle workers. -/
def initPoolState : PoolState :=
  { queue := [], workers := List.replicate ANALYSIS_WORKER_COUNT none }

/-- Transitions of the queue/worker-pool system: a submission enqueues a
folder; an idle worker dequeues the head of the queue and starts executing
it; a busy worker finishes its job and becomes idle. -/
inductive PoolStep : PoolState → PoolState → Prop where
  | enqueue (s : PoolState) (job : String) :
      PoolStep s { s with queue := s.queue ++ [job] }
  | start (s : PoolState) (i : Nat) (job : String) (rest : List String)
      (hw : s.workers.get? i = some none) (hq : s.queue = job :: rest) :
      PoolStep s { queue := rest, workers := s.workers.set i (some job) }
  | finish (s : PoolState) (i : Nat) (job : String)
      (hw : s.workers.get? i = some (some job)) :
      PoolStep s { s with workers := s.workers.set i none }

/-- Reachability from the startup state. -/
def PoolReachable (s : PoolState) : Prop :=
  Relation.ReflTransGen PoolStep initPoolState s

/-- Number of pipelines executing simultaneously: busy workers. -/
def busyCount (s : PoolState) : Nat :=
  (s.workers.filter Option.isSome).length

/-- The seven external-tool failure points of `run_pipeline`: the six
invocations of branch A (stage 5 has two) and the single invocation of
branch B. -/
inductive FailPoint where
  | taxAssign
  | queryProfiling
  | abCmpAlletic
  | cgProfiler
  | dendro
  | heatmap
  | abCmpSimple
  deriving DecidableEq, Repr

/-- The command name failing at each failure point. -/
def failTool : FailPoint → String
  | .taxAssign => taxAssignTool
  | .queryProfiling => queryProfilingTool
  | .abCmpAlletic => abCmpAlleticTool
  | .cgProfiler => cgProfilerTool
  | .dendro => dendroPlotterTool
  | .heatmap => rscriptHeatmapTool
  | .abCmpSimple => abCmpSimpleTool

/-- The stage label written to `error.log` at each failure point, exactly as
in the source's handler messages. -/
def failStageLabel : FailPoint → String
  | .taxAssign => "Taxonomic Assignment"
  | .queryProfiling => "Query-Profiling"
  | .abCmpAlletic => "Ab-Comparison-alleticDist"
  | .cgProfiler => "cgMLST-Profiler"
  | .dendro => "Dendrogram or Heatmap"
  | .heatmap => "Dendrogram or Heatmap"
  | .abCmpSimple => "Simple Ab-Comparison"

/-- The tools the pipeline runs before reaching each failure point. -/
def toolsBefore : FailPoint → List String
  | .taxAssign => []
  | .queryProfiling => [taxAssignTool]
  | .abCmpAlletic => [taxAssignTool, queryProfilingTool]
  | .cgProfiler => [taxAssignTool, queryProfilingTool, abCmpAlleticTool]
  | .dendro =>
      [taxAssignTool, queryProfilingTool, abCmpAlleticTool, cgProfilerTool]
  | .heatmap =>
      [taxAssignTool, queryProfilingTool, abCmpAlleticTool, cgProfilerTool,
       dendroPlotterTool]
  | .abCmpSimple => [taxAssignTool]

/-- The environment reaches the given failure point with error text `e`:
every earlier tool succeeds, the tool at the failure point fails with `e`,
and the branch condition routes the pipeline there. -/
def failSetup (env : Env) (fp : FailPoint) (e : String) : Prop :=
  env.tool (failTool fp) = .error e
  ∧ (∀ t ∈ toolsBefore fp, env.tool t = .ok ())
  ∧ (match fp with
     | .taxAssign => True
     | .abCmpSimple => organismKnown env = false
     | _ => organismKnown env = true)

/-- Concrete environment whose stage-1 tool fails. -/
def envStage1Fails : Env where
  tool := fun n =>
    if n = taxAssignTool then
      .error "Command returned non-zero exit status 1."
    else .ok ()
  taxResultFirstLine := .error "No such file or directory"
  hitsSummaryRows := .ok []

/-- Concrete environment in which every tool succeeds and stage 1 reports
Acinetobacter baumannii, so the organism resolves to AB and branch A runs. -/
def envBranchAOk : Env where
  tool := fun _ => .ok ()
  taxResultFirstLine := .ok "Acinetobacter_baumannii\t99.8"
  hitsSummaryRows := .ok []

/-- Concrete environment with an unrecognized species, every tool
succeeding, and a hits summary containing a header, a short 3-field row and
a full 7-field row. -/
def envBranchBShort : Env where
  tool := fun _ => .ok ()
  taxResultFirstLine := .ok "Unknown_species\t97.2"
  hitsSummaryRows :=
    .ok [["country", "c2", "c3", "c4", "c5", "c6", "c7"],
         ["only", "three", "fields"],
         ["Taiwan", "a", "b", "c", "d", "e", "f"]]

/-- Concrete environment with an unrecognized species, every tool
succeeding, and an empty (but readable) `hits_summary.tsv`. -/
def envBranchBEmptyHits : Env where
  tool := fun _ => .ok ()
  taxResultFirstLine := .ok "Unknown_species\t97.2"
  hitsSummaryRows := .ok []

/-- Concrete environment in which branch A runs and the stage-3 antibiogram
comparison fails. -/
def envStage3Fails : Env where
  tool := fun n =>
    if n = abCmpAlleticTool then .error "exit status 2" else .ok ()
  taxResultFirstLine := .ok "Klebsiella_pneumoniae\t99.1"
  hitsSummaryRows := .ok []

/-- Concrete filesystem with two job directories and a result file in the
second one, used against the download handler. -/
def fsTwoJobs : FileSystem where
  dirs := [["anti_form_jobs", "20250101aa"], ["anti_form_jobs", "20250101bb"]]
  files := [["anti_form_jobs", "20250101bb", "hits_table.tsv"]]

/-- C1: the claim requires that after the worker finishes a job whose
pipeline failed at a stage (run_pipeline wrote error.log and returned), no
complete_ok exists. The code violates this: analysis_worker creates
complete_ok unconditionally after run_in_executor returns, and run_pipeline
returns normally after recording a stage failure, so a job whose stage-1
tool fails ends with BOTH error.log and complete_ok. This contradicts the
code's own comment block (api_anitform.py line 300: complete_ok is created
on success, pipeline_error.log on failure) and anti_pipeline.py's comment
that a failed stage ends without producing complete_ok, so the claim is
right and the code is wrong. -/
theorem worker_marks_complete_ok_despite_error_log :
    errorLog (analysis_worker_run envStage1Fails)
      = ["Taxonomic Assignment failed:\nCommand returned non-zero exit status 1.\n"]
    ∧ hasMarker (analysis_worker_run envStage1Fails) "complete_ok" = true := by
  decide

/-- C2, counterexample: for a job directory holding error.log but no
complete_ok, the claim says the status query returns failed; check_status
returns running, because it never consults error.log. -/
theorem check_status_ignores_error_log_counterexample :
    check_status { dirExists := true, completeOk := false, errorLogExists := true }
      = .ok "running" := rfl

/-- C2, amended: for every job_id whose directory exists, the status result
is derived from the presence of complete_ok alone — done when it is present
and running otherwise; error.log is never consulted and failed is never
returned. -/
theorem check_status_only_consults_complete_ok (fs : JobFS)
    (h : fs.dirExists = true) :
    check_status fs = .ok (if fs.completeOk then "done" else "running") := by
  cases hc : fs.completeOk <;> simp [check_status, h, hc]

/-- Witness for the amended C2 theorem at a concrete filesystem. -/
theorem check_status_only_consults_complete_ok_witness :
    JobFS.dirExists { dirExists := true, completeOk := true, errorLogExists := false } = true
    ∧ check_status { dirExists := true, completeOk := true, errorLogExists := false }
        = .ok (if ({ dirExists := true, completeOk := true, errorLogExists := false } : JobFS).completeOk then "done" else "running") :=
  ⟨rfl, check_status_only_consults_complete_ok
    { dirExists := true, completeOk := true, errorLogExists := false } rfl⟩

/-- C3, counterexample: a filename with parent-directory components that
resolves to an existing file outside the requested job's directory is served
by download_file — the handler checks only that the job directory exists and
that the joined path exists, with no containment check. -/
theorem download_file_serves_outside_job_dir :
    download_file fsTwoJobs "20250101aa" "../20250101bb/hits_table.tsv"
      = .ok ["anti_form_jobs", "20250101bb", "hits_table.tsv"]
    ∧ insideDir ["anti_form_jobs", "20250101aa"]
        ["anti_form_jobs", "20250101bb", "hits_table.tsv"] = false :=
  ⟨rfl, by decide⟩

/-- C3, amended: whenever download_file serves a path, that path is exactly
the resolved join of the job directory and the requested filename and it
exists on the filesystem; no requirement that it lie inside the job
directory is enforced, so filenames resolving outside are served as well. -/
theorem download_file_serves_any_existing_resolved_path
    (fs : FileSystem) (jobId fname : String) (p : List String)
    (h : download_file fs jobId fname = .ok p) :
    p = normalizePath (["anti_form_jobs"] ++ splitPath jobId ++ splitPath fname)
    ∧ pathExists fs p = true := by
  unfold download_file at h
  dsimp only at h
  split at h
  · exact Except.noConfusion h
  · split at h
    next hpe =>
      injection h with h1
      exact ⟨h1.symm, h1 ▸ hpe⟩
    next => exact Except.noConfusion h

/-- Witness for the amended C3 theorem at a concrete input. -/
theorem download_file_serves_any_existing_resolved_path_witness :
    ["anti_form_jobs", "20250101bb", "hits_table.tsv"]
        = normalizePath (["anti_form_jobs"] ++ splitPath "20250101bb" ++ splitPath "hits_table.tsv")
    ∧ pathExists fsTwoJobs ["anti_form_jobs", "20250101bb", "hits_table.tsv"] = true :=
  download_file_serves_any_existing_resolved_path fsTwoJobs
    "20250101bb" "hits_table.tsv"
    ["anti_form_jobs", "20250101bb", "hits_table.tsv"] rfl

/-- C6, counterexample: with an unrecognized organism, all tools succeeding
and a readable but empty hits_summary.tsv, the branch-B parse aborts (the
header read raises StopIteration, caught by the stage handler), so the job
writes error.log and never reaches the finalization that writes complete_ok
— refuting the claim's proviso that readability of the file suffices. -/
theorem branchB_empty_hits_file_aborts :
    organismKnown envBranchBEmptyHits = false
    ∧ hasMarker (run_pipeline envBranchBEmptyHits) "complete_ok" = false
    ∧ errorLog (run_pipeline envBranchBEmptyHits)
        = ["Parsing hits_summary failed:\n\n"] := by
  decide

/-- The branch-B row scan never fails: every row either has fewer than 7
fields and is skipped, or its first field is read without effect. -/
theorem parseRows_ok (rows : List (List String)) : parseRows rows = .ok () := by
  induction rows with
  | nil => rfl
  | cons r rest ih =>
    unfold parseRows
    split
    · exact ih
    · exact ih

/-- C4: whenever the organism resolves to one of the five known
abbreviations and the pipeline run succeeds (its trace creates
complete_ok), the four branch-A stage markers are created, in the order
queryProfile_ok, abProfilesCmp_ok, cgProfiles_ok, DendroPlot_ok (after
taxAssign_ok and before the terminal files). -/
theorem branchA_success_markers_in_order (env : Env)
    (hk : organismKnown env = true)
    (hc : hasMarker (run_pipeline env) "complete_ok" = true) :
    markers (run_pipeline env)
      = ["taxAssign_ok", "queryProfile_ok", "abProfilesCmp_ok",
         "cgProfiles_ok", "DendroPlot_ok", "complete_ok", "country"] := by
  cases h1 : env.tool taxAssignTool <;>
    cases h2 : env.tool queryProfilingTool <;>
      cases h3 : env.tool abCmpAlleticTool <;>
        cases h4 : env.tool cgProfilerTool <;>
          cases h5 : env.tool dendroPlotterTool <;>
            cases h6 : env.tool rscriptHeatmapTool <;>
              simp_all [run_pipeline, markers, hasMarker, finalizeEvs]

/-- Witness for C4 at a concrete environment in which every tool succeeds
and stage 1 reports Acinetobacter baumannii. -/
theorem branchA_success_markers_in_order_witness :
    organismKnown envBranchAOk = true
    ∧ markers (run_pipeline envBranchAOk)
        = ["taxAssign_ok", "queryProfile_ok", "abProfilesCmp_ok",
           "cgProfiles_ok", "DendroPlot_ok", "complete_ok", "country"] :=
  ⟨by decide, branchA_success_markers_in_order envBranchAOk (by decide) (by decide)⟩

/-- C5: whenever the organism does not resolve to one of the five known
abbreviations, the pipeline takes branch B: queryProfile_ok, cgProfiles_ok
and DendroPlot_ok are never created, and every marker the run creates is
among taxAssign_ok, abProfilesCmp_ok and the terminal files. -/
theorem branchB_creates_only_abProfilesCmp_marker (env : Env)
    (hk : organismKnown env = false) :
    hasMarker (run_pipeline env) "queryProfile_ok" = false
    ∧ hasMarker (run_pipeline env) "cgProfiles_ok" = false
    ∧ hasMarker (run_pipeline env) "DendroPlot_ok" = false
    ∧ ∀ m ∈ markers (run_pipeline env),
        m ∈ ["taxAssign_ok", "abProfilesCmp_ok", "complete_ok", "country"] := by
  cases h1 : env.tool taxAssignTool <;>
    cases h3 : env.tool abCmpSimpleTool <;>
      cases hp : parseHitsSummary env.hitsSummaryRows <;>
        simp_all [run_pipeline, markers, hasMarker, finalizeEvs]

/-- Witness for C5 at a concrete environment with an unrecognized species. -/
theorem branchB_creates_only_abProfilesCmp_marker_witness :
    organismKnown envBranchBShort = false
    ∧ (hasMarker (run_pipeline envBranchBShort) "queryProfile_ok" = false
       ∧ hasMarker (run_pipeline envBranchBShort) "cgProfiles_ok" = false
       ∧ hasMarker (run_pipeline envBranchBShort) "DendroPlot_ok" = false
       ∧ ∀ m ∈ markers (run_pipeline envBranchBShort),
           m ∈ ["taxAssign_ok", "abProfilesCmp_ok", "complete_ok", "country"]) :=
  ⟨by decide, branchB_creates_only_abProfilesCmp_marker envBranchBShort (by decide)⟩

/-- C6, amended: in branch B, when the simplified comparison succeeded and
hits_summary.tsv is readable and contains at least its header line, every
short row (fewer than 7 fields) is skipped without aborting the scan, and
the run reaches the finalization that creates complete_ok. -/
theorem branchB_short_rows_skipped_reaches_complete (env : Env)
    (header : List String) (rows : List (List String))
    (hk : organismKnown env = false)
    (h1 : env.tool taxAssignTool = .ok ())
    (h3 : env.tool abCmpSimpleTool = .ok ())
    (hh : env.hitsSummaryRows = .ok (header :: rows)) :
    parseRows rows = .ok ()
    ∧ hasMarker (run_pipeline env) "complete_ok" = true := by
  refine ⟨parseRows_ok rows, ?_⟩
  simp [run_pipeline, h1, hk, h3, parseHitsSummary, hh, parseRows_ok,
        markers, hasMarker, finalizeEvs]

/-- Witness for the amended C6 at a concrete environment whose hits summary
holds a header, a 3-field row and a 7-field row. -/
theorem branchB_short_rows_skipped_reaches_complete_witness :
    parseRows [["only", "three", "fields"], ["Taiwan", "a", "b", "c", "d", "e", "f"]]
        = .ok ()
    ∧ hasMarker (run_pipeline envBranchBShort) "complete_ok" = true :=
  branchB_short_rows_skipped_reaches_complete envBranchBShort
    ["country", "c2", "c3", "c4", "c5", "c6", "c7"]
    [["only", "three", "fields"], ["Taiwan", "a", "b", "c", "d", "e", "f"]]
    (by decide) rfl rfl rfl

/-- C7: for every external-tool failure point, when the run reaches that
point and the tool fails with message e, the stage-boundary handler records
exactly one error.log entry naming the stage and the underlying message, the
trace invokes exactly the earlier tools followed by one invocation of the
failing tool (no later stage, no retry), and complete_ok is never created;
run_pipeline itself is a total trace function, returning normally to its
caller. -/
theorem stage_failure_terminal_logged_no_retry (env : Env) (fp : FailPoint)
    (e : String) (h : failSetup env fp e) :
    errorLog (run_pipeline env)
      = [failStageLabel fp ++ " failed:\n" ++ e ++ "\n"]
    ∧ invokedTools (run_pipeline env) = toolsBefore fp ++ [failTool fp]
    ∧ hasMarker (run_pipeline env) "complete_ok" = false := by
  cases fp with
  | taxAssign =>
    obtain ⟨hf, -, -⟩ := h
    have hf1 : env.tool taxAssignTool = .error e := hf
    simp [run_pipeline, hf1, errorLog, invokedTools, hasMarker, markers,
          failStageLabel, failTool, toolsBefore]
  | queryProfiling =>
    obtain ⟨hf, hpre, hbr⟩ := h
    have hf1 : env.tool queryProfilingTool = .error e := hf
    have hk : organismKnown env = true := hbr
    have h1 : env.tool taxAssignTool = .ok () :=
      hpre taxAssignTool (by simp [toolsBefore])
    simp [run_pipeline, hf1, h1, hk, errorLog, invokedTools, hasMarker,
          markers, failStageLabel, failTool, toolsBefore]
  | abCmpAlletic =>
    obtain ⟨hf, hpre, hbr⟩ := h
    have hf1 : env.tool abCmpAlleticTool = .error e := hf
    have hk : organismKnown env = true := hbr
    have h1 : env.tool taxAssignTool = .ok () :=
      hpre taxAssignTool (by simp [toolsBefore])
    have h2 : env.tool queryProfilingTool = .ok () :=
      hpre queryProfilingTool (by simp [toolsBefore])
    simp [run_pipeline, hf1, h1, h2, hk, errorLog, invokedTools, hasMarker,
          markers, failStageLabel, failTool, toolsBefore]
  | cgProfiler =>
    obtain ⟨hf, hpre, hbr⟩ := h
    have hf1 : env.tool cgProfilerTool = .error e := hf
    have hk : organismKnown env = true := hbr
    have h1 : env.tool taxAssignTool = .ok () :=
      hpre taxAssignTool (by simp [toolsBefore])
    have h2 : env.tool queryProfilingTool = .ok () :=
      hpre queryProfilingTool (by simp [toolsBefore])
    have h3 : env.tool abCmpAlleticTool = .ok () :=
      hpre abCmpAlleticTool (by simp [toolsBefore])
    simp [run_pipeline, hf1, h1, h2, h3, hk, errorLog, invokedTools,
          hasMarker, markers, failStageLabel, failTool, toolsBefore]
  | dendro =>
    obtain ⟨hf, hpre, hbr⟩ := h
    have hf1 : env.tool dendroPlotterTool = .error e := hf
    have hk : organismKnown env = true := hbr
    have h1 : env.tool taxAssignTool = .ok () :=
      hpre taxAssignTool (by simp [toolsBefore])
    have h2 : env.tool queryProfilingTool = .ok () :=
      hpre queryProfilingTool (by simp [toolsBefore])
    have h3 : env.tool abCmpAlleticTool = .ok () :=
      hpre abCmpAlleticTool (by simp [toolsBefore])
    have h4 : env.tool cgProfilerTool = .ok () :=
      hpre cgProfilerTool (by simp [toolsBefore])
    simp [run_pipeline, hf1, h1, h2, h3, h4, hk, errorLog, invokedTools,
          hasMarker, markers, failStageLabel, failTool, toolsBefore]
  | heatmap =>
    obtain ⟨hf, hpre, hbr⟩ := h
    have hf1 : env.tool rscriptHeatmapTool = .error e := hf
    have hk : organismKnown env = true := hbr
    have h1 : env.tool taxAssignTool = .ok () :=
      hpre taxAssignTool (by simp [toolsBefore])
    have h2 : env.tool queryProfilingTool = .ok () :=
      hpre queryProfilingTool (by simp [toolsBefore])
    have h3 : env.tool abCmpAlleticTool = .ok () :=
      hpre abCmpAlleticTool (by simp [toolsBefore])
    have h4 : env.tool cgProfilerTool = .ok () :=
      hpre cgProfilerTool (by simp [toolsBefore])
    have h5 : env.tool dendroPlotterTool = .ok () :=
      hpre dendroPlotterTool (by simp [toolsBefore])
    simp [run_pipeline, hf1, h1, h2, h3, h4, h5, hk, errorLog, invokedTools,
          hasMarker, markers, failStageLabel, failTool, toolsBefore]
  | abCmpSimple =>
    obtain ⟨hf, hpre, hbr⟩ := h
    have hf1 : env.tool abCmpSimpleTool = .error e := hf
    have hk : organismKnown env = false := hbr
    have h1 : env.tool taxAssignTool = .ok () :=
      hpre taxAssignTool (by simp [toolsBefore])
    simp [run_pipeline, hf1, h1, hk, errorLog, invokedTools, hasMarker,
          markers, failStageLabel, failTool, toolsBefore]

/-- Witness for C7 at a concrete environment whose stage-3 antibiogram
comparison fails while branch A is active. -/
theorem stage_failure_terminal_logged_no_retry_witness :
    errorLog (run_pipeline envStage3Fails)
      = [failStageLabel .abCmpAlletic ++ " failed:\n" ++ "exit status 2" ++ "\n"]
    ∧ invokedTools (run_pipeline envStage3Fails)
        = toolsBefore .abCmpAlletic ++ [failTool .abCmpAlletic]
    ∧ hasMarker (run_pipeline envStage3Fails) "complete_ok" = false :=
  stage_failure_terminal_logged_no_retry envStage3Fails .abCmpAlletic
    "exit status 2"
    (by
      refine ⟨rfl, ?_, by decide⟩
      intro t ht
      simp only [toolsBefore, List.mem_cons, List.not_mem_nil, or_false] at ht
      rcases ht with h | h <;> subst h <;> rfl)

/-- C9: in every pool state reachable from startup, the pool still consists
of exactly ANALYSIS_WORKER_COUNT long-lived workers — each holding at most
one job, by the shape of the worker state — and the number of
simultaneously executing pipelines is at most ANALYSIS_WORKER_COUNT,
however many jobs have been enqueued. -/
theorem worker_pool_concurrency_bound (s : PoolState) (h : PoolReachable s) :
    s.workers.length = ANALYSIS_WORKER_COUNT
    ∧ busyCount s ≤ ANALYSIS_WORKER_COUNT := by
  have hlen : s.workers.length = ANALYSIS_WORKER_COUNT := by
    induction h with
    | refl => simp [initPoolState]
    | tail _ step ih => cases step <;> simpa [List.length_set] using ih
  refine ⟨hlen, ?_⟩
  calc busyCount s ≤ s.workers.length := List.length_filter_le _ _
    _ = ANALYSIS_WORKER_COUNT := hlen

/-- Witness for C9 at the state reached by one submission followed by one
worker dequeuing it: one busy worker, four idle. -/
theorem worker_pool_concurrency_bound_witness :
    (⟨[], [some "anti_form_jobs/j1", none, none, none, none]⟩ : PoolState).workers.length
        = ANALYSIS_WORKER_COUNT
    ∧ busyCount ⟨[], [some "anti_form_jobs/j1", none, none, none, none]⟩
        ≤ ANALYSIS_WORKER_COUNT :=
  worker_pool_concurrency_bound
    ⟨[], [some "anti_form_jobs/j1", none, none, none, none]⟩
    (Relation.ReflTransGen.tail
      (Relation.ReflTransGen.tail Relation.ReflTransGen.refl
        (PoolStep.enqueue initPoolState "anti_form_jobs/j1"))
      (PoolStep.start _ 0 "anti_form_jobs/j1" [] (by decide) rfl))

/-- Consuming a class-`p` block: a list whose elements all satisfy `p`
followed by a suffix consumes to exactly that suffix. -/
theorem consumeClass_append (p : Char → Bool) (xs ys : List Char)
    (hall : xs.all p = true) :
    consumeClass p xs.length (xs ++ ys) = some ys := by
  induction xs with
  | nil => rfl
  | cons c cs ih =>
    simp only [List.all_cons, Bool.and_eq_true] at hall
    simpa [consumeClass, hall.1] using ih hall.2

/-- A list whose elements all satisfy `p` consumes completely. -/
theorem consumeClass_exact (p : Char → Bool) (xs : List Char)
    (hall : xs.all p = true) :
    consumeClass p xs.length xs = some [] := by
  simpa using consumeClass_append p xs [] hall

/-- Soundness of `consumeClass`: a successful consumption splits the input
into a satisfying block of the demanded length and the returned suffix. -/
theorem consumeClass_sound (p : Char → Bool) :
    ∀ (n : Nat) (xs ys : List Char), consumeClass p n xs = some ys →
      ∃ zs, xs = zs ++ ys ∧ zs.all p = true ∧ zs.length = n := by
  intro n
  induction n with
  | zero =>
    intro xs ys h
    injection h with h1
    exact ⟨[], by simp [h1]⟩
  | succ n ih =>
    intro xs ys h
    cases xs with
    | nil => cases h
    | cons c cs =>
      unfold consumeClass at h
      split at h
      next hp =>
        obtain ⟨zs, hzs, hall, hlen⟩ := ih cs ys h
        exact ⟨c :: zs, by simp [hzs], by simp [hp, hall], by simp [hlen]⟩
      next => cases h

/-- Zero-padded two-digit rendering: for counters up to 99 the sequence
field has exactly two characters, all digits. -/
theorem pad2_spec : ∀ n < 100,
    (pad2 n).data.length = 2 ∧ (pad2 n).data.all Char.isDigit = true := by
  decide

/-- The default-or-member principle for `List.getD`. -/
theorem getD_all (p : Char → Bool) :
    ∀ (l : List Char), l.all p = true → ∀ (d : Char), p d = true →
      ∀ m, p (l.getD m d) = true := by
  intro l
  induction l with
  | nil => intro _ d hd m; simpa [List.getD] using hd
  | cons c cs ih =>
    intro hall d hd m
    simp only [List.all_cons, Bool.and_eq_true] at hall
    cases m with
    | zero => simpa [List.getD] using hall.1
    | succ m => simpa [List.getD] using ih hall.2 d hd m

/-- Properties of `generate_random_keys`: the produced string has the
requested length and consists of pool characters only, hence of ASCII
alphanumerics. -/
theorem generate_random_keys_spec (n : Nat) (rand : Nat → Nat) (pos : Nat) :
    (generate_random_keys n rand pos).data.length = n
    ∧ (generate_random_keys n rand pos).data.all isAlnumAscii = true := by
  unfold generate_random_keys
  constructor
  · simp
  · simp only [List.all_eq_true]
    intro c hc
    simp only [List.mem_map] at hc
    obtain ⟨i, -, rfl⟩ := hc
    exact getD_all isAlnumAscii poolChars (by decide) '0' (by decide) _

/-- Candidate job ids produced by `mkJobId` satisfy the documented format
whenever the date prefix is eight digits and the counter is at most 99. -/
theorem mkJobId_format (today : String) (seqn : Nat) (rand : Nat → Nat)
    (pos : Nat)
    (htoday : consumeClass Char.isDigit 8 today.data = some [])
    (hseq : seqn < 100) :
    jobIdFormatOk (mkJobId today seqn rand pos) = true := by
  obtain ⟨zs, hzs, hzall, hzlen⟩ :=
    consumeClass_sound Char.isDigit 8 today.data [] htoday
  rw [List.append_nil] at hzs
  have hlen8 : today.data.length = 8 := by rw [hzs]; exact hzlen
  have hall8 : today.data.all Char.isDigit = true := by rw [hzs]; exact hzall
  obtain ⟨hplen, hpall⟩ := pad2_spec seqn hseq
  obtain ⟨hk1len, hk1all⟩ := generate_random_keys_spec 4 rand pos
  obtain ⟨hk2len, hk2all⟩ := generate_random_keys_spec 4 rand (pos + 4)
  obtain ⟨hk3len, hk3all⟩ := generate_random_keys_spec 8 rand (pos + 8)
  obtain ⟨k1, hk1⟩ : ∃ k, (generate_random_keys 4 rand pos).data = k := ⟨_, rfl⟩
  obtain ⟨k2, hk2⟩ : ∃ k, (generate_random_keys 4 rand (pos + 4)).data = k :=
    ⟨_, rfl⟩
  obtain ⟨k3, hk3⟩ : ∃ k, (generate_random_keys 8 rand (pos + 8)).data = k :=
    ⟨_, rfl⟩
  rw [hk1] at hk1len hk1all
  rw [hk2] at hk2len hk2all
  rw [hk3] at hk3len hk3all
  have hdata : (mkJobId today seqn rand pos).data
      = (today.data ++ (pad2 seqn).data) ++ '-' ::
        (k1 ++ '-' :: (k2 ++ '-' :: k3)) := by
    simp [mkJobId, String.data_append, hk1, hk2, hk3]
  have hten : (today.data ++ (pad2 seqn).data).length = 10 := by
    simp [List.length_append, hlen8, hplen]
  have htenall : (today.data ++ (pad2 seqn).data).all Char.isDigit = true := by
    simp [List.all_append, hall8, hpall]
  have e1 : consumeClass Char.isDigit 10
      ((today.data ++ (pad2 seqn).data) ++ '-' :: (k1 ++ '-' :: (k2 ++ '-' :: k3)))
      = some ('-' :: (k1 ++ '-' :: (k2 ++ '-' :: k3))) := by
    rw [← hten]
    exact consumeClass_append _ _ _ htenall
  have e2 : consumeClass isAlnumAscii 4 (k1 ++ '-' :: (k2 ++ '-' :: k3))
      = some ('-' :: (k2 ++ '-' :: k3)) := by
    rw [← hk1len]
    exact consumeClass_append _ _ _ hk1all
  have e3 : consumeClass isAlnumAscii 4 (k2 ++ '-' :: k3) = some ('-' :: k3) := by
    rw [← hk2len]
    exact consumeClass_append _ _ _ hk2all
  have e4 : consumeClass isAlnumAscii 8 k3 = some [] := by
    rw [← hk3len]
    exact consumeClass_exact _ _ hk3all
  rw [List.append_assoc] at e1
  unfold jobIdFormatOk
  rw [hdata]
  simp [e1, e2, e3, e4, expectDash]

/-- C8, counterexample: the 100th submission of a day carries daily counter
100, whose `%02d` rendering has three digits, so the generated job id does
not match the documented format YYYYMMDDss-XXXX-XXXX-XXXXXXXX (its date
block is eleven characters long instead of ten). -/
theorem job_id_format_fails_beyond_99 :
    generate_job_id 3 "20261012" (some 100) (fun _ => false) (fun _ => 0) 0
      = some ("20261012100-0000-0000-00000000", 101)
    ∧ jobIdFormatOk "20261012100-0000-0000-00000000" = false :=
  ⟨rfl, by decide⟩

/-- C8, amended: every job id returned by generate_job_id names a directory
that does not already exist (retrying on collision until a fresh id is
found), and it matches the documented format YYYYMMDDss-XXXX-XXXX-XXXXXXXX
with two-digit sequence number provided the date is eight digits and the
resulting counter value stays at most 100 (i.e. all sequence numbers used
were at most 99; beyond that the sequence field grows past two digits). -/
theorem generate_job_id_fresh_and_formatted (fuel : Nat) (today : String)
    (counterEntry : Option Nat) (dirTaken : String → Bool) (rand : Nat → Nat)
    (pos : Nat) (jid : String) (c : Nat)
    (hgen : generate_job_id fuel today counterEntry dirTaken rand pos
      = some (jid, c))
    (htoday : consumeClass Char.isDigit 8 today.data = some [])
    (hc : c ≤ 100) :
    dirTaken ("anti_form_jobs/" ++ jid) = false
    ∧ jobIdFormatOk jid = true := by
  induction fuel generalizing counterEntry pos jid c with
  | zero => cases hgen
  | succ fuel ih =>
    unfold generate_job_id at hgen
    dsimp only at hgen
    split at hgen
    next hfree =>
      injection hgen with h1
      injection h1 with hjid hcv
      subst hjid
      subst hcv
      exact ⟨hfree, mkJobId_format today _ rand pos htoday (by omega)⟩
    next => exact ih _ _ _ _ hgen hc

/-- Witness for the amended C8 at a concrete first-submission state: the
returned id is fresh and matches the documented format. -/
theorem generate_job_id_fresh_and_formatted_witness :
    (fun _ => false : String → Bool)
        ("anti_form_jobs/" ++ "2026101201-0000-0000-00000000") = false
    ∧ jobIdFormatOk "2026101201-0000-0000-00000000" = true :=
  generate_job_id_fresh_and_formatted 3 "20261012" none (fun _ => false)
    (fun _ => 0) 0 "2026101201-0000-0000-00000000" 2 rfl (by decide) (by decide)

/-- C10: when the submitted gcaCode is nonempty and fails the GCA format
validation, the /upload handler answers HTTP 400, but only after the job id
has been allocated (the daily sequence counter is advanced to its new
value) and the job directory has been created; the rejected submission
leaves that directory behind empty (no formData.json, no FASTA is written —
the files component is untouched) and enqueues nothing. -/
theorem invalid_gca_rejected_after_allocation (fuel : Nat) (today : String)
    (rand : Nat → Nat) (pos : Nat) (gcaCode : String) (hasFile : Bool)
    (fileRead : Except String String) (downloadRes : Except String Unit)
    (email : Option String) (emailRes : Except String Unit)
    (st : BackendState) (jid : String) (c : Nat)
    (hgen : generate_job_id fuel today st.counters
      (fun p => st.dirs.contains p) rand pos = some (jid, c))
    (hne : gcaCode ≠ "")
    (hinv : validate_gca_code gcaCode = false) :
    upload_file fuel today rand pos gcaCode hasFile fileRead downloadRes
        email emailRes st
      = some (.error 400,
          { st with counters := some c,
                    dirs := st.dirs ++ ["anti_form_jobs/" ++ jid] }) := by
  unfold upload_file
  rw [hgen]
  dsimp only
  rw [if_pos ⟨hne, hinv⟩]

/-- Witness for C10 at a concrete malformed submission against an empty
backend state. -/
theorem invalid_gca_rejected_after_allocation_witness :
    upload_file 3 "20261012" (fun _ => 0) 0 "GCA_BAD" false (.ok "fa")
        (.ok ()) none (.ok ()) ⟨none, [], [], []⟩
      = some (.error 400,
          { (⟨none, [], [], []⟩ : BackendState) with
              counters := some 2,
              dirs := [] ++ ["anti_form_jobs/" ++ "2026101201-0000-0000-00000000"] }) :=
  invalid_gca_rejected_after_allocation 3 "20261012" (fun _ => 0) 0 "GCA_BAD"
    false (.ok "fa") (.ok ()) none (.ok ()) ⟨none, [], [], []⟩
    "2026101201-0000-0000-00000000" 2 rfl (by decide) (by decide)

end CrossNoso
